import Mathlib

/-!
# Shelter kiosk: verification of the attendance / leave state-transition core

Shallow embedding of the logic core of `src/app.py` (Flask app for shelter
leave, transport and attendance tracking).

Modelling conventions:
* Instants are UTC seconds since an epoch, as `Int`.  The stored ISO-8601
  UTC strings order lexicographically exactly as their instants order, so
  SQL comparisons and Python `datetime` comparisons on them are embedded as
  `Int` comparisons.
* The fixed display timezone (`America/Chicago` in the source) is embedded
  as a UTC offset `off : Int` in seconds; local wall-clock value of a UTC
  instant `t` is `t + off`.  Python's comparison of two aware datetimes
  compares instants, which for a common offset equals comparing wall values.
* Stored nullable timestamp columns are `Option Int`: `none` stands for SQL
  NULL or for a stored string that `datetime.fromisoformat` rejects (the
  source skips both with `try/except`, which the model mirrors by matching
  on `none`).
* Database rows are records with named fields (the PostgreSQL dict-row
  branch of the source; the sqlite tuple indices address the same columns).
* `db_fetchone` on a query keyed by primary key is `List.find?`; an SQL
  `UPDATE ... WHERE w` is `List.map` applying the SET clause to rows
  satisfying `w`; the affected-row count is the number of rows satisfying
  `w`.  `ORDER BY event_time DESC LIMIT 1` is a fold keeping the later
  event (first row wins ties).
* The audit log and outgoing SMS are event lists appended to by the
  handlers, mirroring `log_action` and `send_sms`.
-/

namespace ShelterKiosk

/-- Seconds in a day. -/
def secondsPerDay : Int := 86400

/-- Start of the calendar day (midnight) containing wall-clock second `t`:
`datetime.replace(hour=0, minute=0, second=0)` on the same wall clock. -/
def dayStart (t : Int) : Int := t.ediv 86400 * 86400

/-- Calendar-day number of wall-clock second `t` (`strftime "%Y-%m-%d"`
collapsed to a day count; equal day numbers iff equal date strings). -/
def dayOf (t : Int) : Int := t.ediv 86400

/-- One row of the `leave_requests` table (columns from `init_db`,
src/app.py lines 424-443). -/
structure LeaveRow where
  id : Nat
  shelter : String
  resident_identifier : String
  first_name : String
  last_name : String
  resident_phone : String
  destination : String
  leave_at : Option Int
  return_at : Option Int
  status : String
  decided_at : Option Int
  decided_by : Option Nat
  decision_note : Option String
  check_in_at : Option Int
  check_in_by : Option Nat
deriving Repr, DecidableEq

/-- One row of the `audit_log` table (`log_action`, src/app.py 225-241). -/
structure AuditEntry where
  entity_type : String
  entity_id : Option Nat
  shelter : Option String
  staff_user_id : Option Nat
  action_type : String
  action_details : String
deriving Repr, DecidableEq

/-- The mutable store the leave handlers touch. -/
structure St where
  leave_requests : List LeaveRow
  audit_log : List AuditEntry
deriving Repr, DecidableEq

/-! ## Overdue view (`staff_leave_overdue`, src/app.py 1175-1220) -/

/-- The SQL pre-filter of the overdue view: approved rows of the shelter
not yet checked in (src/app.py 1179-1193).  Ordering does not affect
membership and is dropped. -/
def overdueQuery (shelter : String) (rows : List LeaveRow) : List LeaveRow :=
  rows.filter fun r =>
    r.status == "approved" && r.shelter == shelter && r.check_in_at.isNone

/-- The per-row cutoff: 10:00 PM wall clock on the calendar day of the
local return instant `rtLocal` (src/app.py 1206-1207,
`rt_local.replace(hour=22, minute=0, second=0, microsecond=0)`). -/
def overdueCutoffLocal (rtLocal : Int) : Int := dayStart rtLocal + 22 * 3600

/-- The Python loop of `staff_leave_overdue` (src/app.py 1195-1212): keep a
row iff its `return_at` is present and parseable and the current local
wall clock is strictly past the 10 PM cutoff of the local return date. -/
def staff_leave_overdue (off nowUtc : Int) (shelter : String)
    (rows : List LeaveRow) : List LeaveRow :=
  (overdueQuery shelter rows).filter fun r =>
    match r.return_at with
    | none => false
    | some rt => decide (nowUtc + off > overdueCutoffLocal (rt + off))

/-! ## Transport board and print views
(`staff_transport_board` src/app.py 1364-1403,
 `staff_transport_print` src/app.py 1406-1447) -/

/-- One row of the `transport_requests` table, the columns the board logic
reads (src/app.py 480-501). -/
structure TransportRow where
  id : Nat
  shelter : String
  status : String
  needed_at : Option Int
deriving Repr, DecidableEq

/-- The SQL query shared by board and print: rows of the shelter with
status pending or scheduled (src/app.py 1370-1388 and 1413-1431). -/
def transportQuery (shelter : String) (rows : List TransportRow) :
    List TransportRow :=
  rows.filter fun r =>
    r.shelter == shelter && (r.status == "pending" || r.status == "scheduled")

/-- The day filter loop (src/app.py 1391-1401 and 1437-1447): keep a row
iff `parse_dt(needed_at).strftime("%Y-%m-%d")` equals the requested day.
The stored instant is naive UTC and is NOT converted to the local
timezone before taking its date, so this is the UTC calendar day. -/
def transportDayFilter (day : Int) (rows : List TransportRow) :
    List TransportRow :=
  rows.filter fun r =>
    match r.needed_at with
    | none => false
    | some t => dayOf t == day

/-- `staff_transport_board`: day filter applied only when a day was
requested (src/app.py 1390-1401). -/
def staff_transport_board (shelter : String) (day : Option Int)
    (rows : List TransportRow) : List TransportRow :=
  match day with
  | none => transportQuery shelter rows
  | some d => transportDayFilter d (transportQuery shelter rows)

/-- `staff_transport_print`: like the board but an empty day defaults to
the current UTC date (src/app.py 1433-1447). -/
def staff_transport_print (shelter : String) (day : Option Int)
    (todayUtc : Int) (rows : List TransportRow) : List TransportRow :=
  transportDayFilter (day.getD (dayOf todayUtc)) (transportQuery shelter rows)

/-! ## SMS sending (`send_sms`, src/app.py 128-150) -/

/-- The Twilio environment `send_sms` consults, plus whether the provider
call `client.messages.create` would raise. -/
structure SmsEnv where
  clientAvailable : Bool
  accountSid : Option String
  authToken : Option String
  fromNumber : Option String
  providerFails : Bool
deriving Repr, DecidableEq

/-- What a `send_sms` call did: messages handed to the provider, console
error prints, and whether the call raised to its caller. -/
structure SmsResult where
  sent : List (String × String)
  consolePrints : Nat
  raised : Bool
deriving Repr, DecidableEq

/-- Python truthiness of an optional credential string (`not SID`):
missing or empty means falsy. -/
def credMissing : Option String → Bool
  | none => true
  | some s => s == ""

/-- Python `str.strip()`: drop surrounding whitespace. -/
def pyStrip (s : String) : String :=
  ⟨((s.data.dropWhile Char.isWhitespace).reverse.dropWhile
    Char.isWhitespace).reverse⟩

/-- Whether the string starts with the given character. -/
def pyStartsWith (c : Char) (s : String) : Bool :=
  match s.data with
  | x :: _ => x == c
  | [] => false

/-- The digits of a string (src/app.py 135). -/
def pyDigits (s : String) : String := ⟨s.data.filter Char.isDigit⟩

/-- The inner `try` of `send_sms` (src/app.py 146-150): a provider failure
is caught and printed, never re-raised. -/
def smsAttempt (env : SmsEnv) (e164 msg : String) : SmsResult :=
  if env.providerFails then ⟨[], 1, false⟩ else ⟨[(e164, msg)], 0, false⟩

/-- `send_sms` (src/app.py 128-150): no-op without a client or credentials;
normalizes the phone (verbatim `+`, 10 digits get `+1`, 11 digits starting
`1` get `+`, anything else silently dropped); provider errors are caught
inside, so the function returns normally on every path. -/
def send_sms (env : SmsEnv) (to_number msg : String) : SmsResult :=
  if !env.clientAvailable then ⟨[], 0, false⟩
  else if credMissing env.accountSid || credMissing env.authToken
      || credMissing env.fromNumber then ⟨[], 0, false⟩
  else
    let raw := pyStrip to_number
    let digits := pyDigits raw
    if pyStartsWith '+' raw then smsAttempt env raw msg
    else if digits.length == 10 then smsAttempt env ("+1" ++ digits) msg
    else if digits.length == 11 && pyStartsWith '1' digits then
      smsAttempt env ("+" ++ digits) msg
    else ⟨[], 0, false⟩

/-! ## Leave approve / deny / check-in
(`staff_leave_approve` src/app.py 1226-1286,
 `staff_leave_deny` src/app.py 1292-1318,
 `staff_leave_check_in` src/app.py 1324-1347) -/

/-- The row-match predicate of the lookups in `staff_leave_approve`
(src/app.py 1231-1236 and 1260-1265). -/
def leaveRowMatch (reqId : Nat) (shelter : String) (r : LeaveRow) : Bool :=
  r.id == reqId && r.shelter == shelter

/-- The WHERE clause of the approve UPDATE (src/app.py 1242-1256): it keys
only on id and shelter — there is NO `status = 'pending'` condition. -/
def approveWhere (reqId : Nat) (shelter : String) (r : LeaveRow) : Bool :=
  leaveRowMatch reqId shelter r

/-- The SET clause of the approve UPDATE (src/app.py 1244-1255). -/
def approveSet (now : Int) (staffId : Nat) (note : String) (r : LeaveRow) :
    LeaveRow :=
  { r with
    status := "approved"
    decided_at := some now
    decided_by := some staffId
    decision_note := if note == "" then none else some note }

/-- The approve UPDATE statement applied to the table. -/
def approveUpdate (now : Int) (staffId : Nat) (note : String) (reqId : Nat)
    (shelter : String) (rows : List LeaveRow) : List LeaveRow :=
  rows.map fun r =>
    if approveWhere reqId shelter r then approveSet now staffId note r else r

/-- A date rendered for the SMS body.  `fmt_pretty_date` (src/app.py
105-114) converts to the local date and formats it; the textual rendering
is view-layer and is abbreviated here to the local day number. -/
def fmt_pretty_date (off : Int) : Option Int → String
  | none => ""
  | some t => toString (dayOf (t + off))

/-- The approval SMS text (src/app.py 1274-1278). -/
def approveSmsMsg (off : Int) (r : LeaveRow) : String :=
  "Leave approved for " ++ r.first_name ++ " " ++ r.last_name ++ ". Leave "
    ++ fmt_pretty_date off r.leave_at ++ ". Return "
    ++ fmt_pretty_date off r.return_at ++ " by 10 PM."

/-- Outcome of a leave handler: resulting store, flash message and its
category, and what SMS activity happened. -/
structure HandlerResult where
  st : St
  flash : String
  flashKind : String
  sms : SmsResult
deriving Repr, DecidableEq

/-- No SMS activity. -/
def noSms : SmsResult := ⟨[], 0, false⟩

/-- `staff_leave_approve` (src/app.py 1226-1286): fetch the row by id and
shelter; reject with "Not pending." unless it exists with status
`pending`; otherwise run the (unconditional) UPDATE, write the `approve`
audit entry, re-fetch the row and send the SMS when a phone is stored.
The `except` branch writing a `(leave, sms_failed)` audit entry fires only
if `send_sms` raises. -/
def staff_leave_approve (env : SmsEnv) (off now : Int) (reqId : Nat)
    (shelter : String) (staffId : Nat) (note : String) (st : St) :
    HandlerResult :=
  match st.leave_requests.find? (leaveRowMatch reqId shelter) with
  | none => ⟨st, "Not pending.", "error", noSms⟩
  | some row =>
    if row.status != "pending" then ⟨st, "Not pending.", "error", noSms⟩
    else
      let lr := approveUpdate now staffId note reqId shelter st.leave_requests
      let audit1 := st.audit_log
        ++ [⟨"leave", some reqId, some shelter, some staffId, "approve", note⟩]
      match lr.find? (leaveRowMatch reqId shelter) with
      | none => ⟨⟨lr, audit1⟩, "Approved.", "ok", noSms⟩
      | some req =>
        let res :=
          if req.resident_phone != "" then
            send_sms env req.resident_phone (approveSmsMsg off req)
          else noSms
        let audit2 :=
          if res.raised then
            audit1 ++ [⟨"leave", some reqId, some shelter, some staffId,
              "sms_failed", "exception"⟩]
          else audit1
        ⟨⟨lr, audit2⟩, "Approved.", "ok", res⟩

/-- The WHERE clause of the deny UPDATE (src/app.py 1300-1314): id,
shelter AND `status = 'pending'`. -/
def denyWhere (reqId : Nat) (shelter : String) (r : LeaveRow) : Bool :=
  r.id == reqId && r.shelter == shelter && r.status == "pending"

/-- `staff_leave_deny` (src/app.py 1292-1318): an empty note is rejected
before any mutation; otherwise the conditional UPDATE runs and the handler
unconditionally writes the `deny` audit entry and flashes "Denied." —
the affected-row count (returned here as the last component) is never
inspected. -/
def staff_leave_deny (now : Int) (reqId : Nat) (shelter : String)
    (staffId : Nat) (note : String) (st : St) : HandlerResult × Nat :=
  if note == "" then (⟨st, "Denial note required.", "error", noSms⟩, 0)
  else
    let affected := (st.leave_requests.filter (denyWhere reqId shelter)).length
    let lr := st.leave_requests.map fun r =>
      if denyWhere reqId shelter r then
        { r with
          status := "denied"
          decided_at := some now
          decided_by := some staffId
          decision_note := some note }
      else r
    let audit := st.audit_log
      ++ [⟨"leave", some reqId, some shelter, some staffId, "deny", note⟩]
    (⟨⟨lr, audit⟩, "Denied.", "ok", noSms⟩, affected)

/-- The WHERE clause of the leave check-in UPDATE (src/app.py 1329-1343):
id, shelter, `status = 'approved'` AND `check_in_at IS NULL`. -/
def leaveCheckInWhere (reqId : Nat) (shelter : String) (r : LeaveRow) :
    Bool :=
  r.id == reqId && r.shelter == shelter && r.status == "approved"
    && r.check_in_at.isNone

/-- `staff_leave_check_in` (src/app.py 1324-1347): the conditional UPDATE
runs and the handler unconditionally writes the `check_in` audit entry and
flashes "Checked in." — the affected-row count is never inspected. -/
def staff_leave_check_in (now : Int) (reqId : Nat) (shelter : String)
    (staffId : Nat) (note : String) (st : St) : HandlerResult × Nat :=
  let affected :=
    (st.leave_requests.filter (leaveCheckInWhere reqId shelter)).length
  let lr := st.leave_requests.map fun r =>
    if leaveCheckInWhere reqId shelter r then
      { r with
        status := "checked_in"
        check_in_at := some now
        check_in_by := some staffId }
    else r
  let audit := st.audit_log
    ++ [⟨"leave", some reqId, some shelter, some staffId, "check_in", note⟩]
  (⟨⟨lr, audit⟩, "Checked in.", "ok", noSms⟩, affected)

/-! ## Leave submission (`resident_leave` POST branch, src/app.py 816-915) -/

/-- A date form field as the validation sees it: empty, non-empty but
rejected by `datetime.fromisoformat`, or parsed to an instant. -/
inductive RawDt
  | empty
  | malformed
  | parsed (t : Int)
deriving Repr, DecidableEq

/-- Whether the field is non-empty (Python truthiness of the raw string). -/
def RawDt.nonEmpty : RawDt → Bool
  | .empty => false
  | _ => true

/-- The submitted leave form (src/app.py 821-835). -/
structure LeaveForm where
  resident_phone : String
  destination : String
  reason : String
  resident_notes : String
  leave_at : RawDt
  return_at : RawDt
  agreed : Bool
deriving Repr, DecidableEq

/-- The resident session fields the handler reads (src/app.py 817-820). -/
structure ResidentSession where
  shelter : String
  resident_identifier : String
  first : String
  last : String
deriving Repr, DecidableEq

/-- The validation error list of `resident_leave` (src/app.py 837-855),
in the order the source appends them. -/
def leaveValidationErrors (sess : ResidentSession) (form : LeaveForm) :
    List String :=
  (if !form.agreed then ["You must accept the agreement."] else [])
  ++ (if sess.first == "" || sess.last == "" || form.destination == ""
        || !form.leave_at.nonEmpty || !form.return_at.nonEmpty then
        ["Complete all required fields."] else [])
  ++ (if form.resident_phone == "" then
        ["A phone number is required for text updates."] else [])
  ++ (match form.leave_at, form.return_at with
      | .parsed l, .parsed r =>
        (if r ≤ l then ["Return must be after leave."] else [])
          ++ (if r > l + 7 * 86400 then ["Maximum leave is 7 days."] else [])
      | _, _ => ["Invalid date."])

/-- What a POST to `/leave` did: whether the residents table was updated
with the submitted phone, the inserted leave row if any, the audit entries
written, the validation errors, and whether a 400 was returned. -/
structure LeaveSubmitResult where
  phone_updated : Bool
  inserted : Option LeaveRow
  audit : List AuditEntry
  errors : List String
  http400 : Bool
deriving Repr, DecidableEq

/-- `resident_leave` POST (src/app.py 816-915).  A non-empty phone updates
the resident row FIRST (src/app.py 822-828), before validation runs; on
validation failure the handler returns 400 without touching
`leave_requests`; on success it inserts the pending row and writes the
`(leave, create)` audit entry. -/
def resident_leave_post (nextId : Nat) (sess : ResidentSession)
    (form : LeaveForm) : LeaveSubmitResult :=
  let phoneUpdated := form.resident_phone != ""
  let errors := leaveValidationErrors sess form
  if errors.isEmpty then
    match form.leave_at, form.return_at with
    | .parsed l, .parsed r =>
      let row : LeaveRow :=
        { id := nextId
          shelter := sess.shelter
          resident_identifier := sess.resident_identifier
          first_name := sess.first
          last_name := sess.last
          resident_phone := form.resident_phone
          destination := form.destination
          leave_at := some l
          return_at := some r
          status := "pending"
          decided_at := none
          decided_by := none
          decision_note := none
          check_in_at := none
          check_in_by := none }
      ⟨phoneUpdated, some row,
        [⟨"leave", some nextId, some sess.shelter, none, "create",
          "Resident submitted leave request"⟩], errors, false⟩
    | _, _ => ⟨phoneUpdated, none, [], errors, true⟩
  else ⟨phoneUpdated, none, [], errors, true⟩

/-! ## Attendance board reducer (`staff_attendance`, src/app.py 1562-1702) -/

/-- One row of the `attendance_events` table, the columns the reducer
reads. -/
structure AEvent where
  event_type : String
  event_time : Int
  expected_back_time : Option Int
  note : Option String
deriving Repr, DecidableEq

/-- Keep the later of an accumulator and the next event (strictly later
wins, so the first row wins ties): the fold underlying
`ORDER BY event_time DESC LIMIT 1`. -/
def pickLater (acc : Option AEvent) (e : AEvent) : Option AEvent :=
  match acc with
  | none => some e
  | some a => if a.event_time < e.event_time then some e else acc

/-- `ORDER BY event_time DESC LIMIT 1` over a list of events. -/
def qLastByTime (l : List AEvent) : Option AEvent := l.foldl pickLater none

/-- The `check_out` rows of a resident's events (the filtered query at
src/app.py 1607-1625). -/
def checkoutsOf (evs : List AEvent) : List AEvent :=
  evs.filter fun e => e.event_type == "check_out"

/-- The `check_in` rows strictly after instant `ct` (the filtered query at
src/app.py 1635-1653). -/
def checkinsAfter (evs : List AEvent) (ct : Int) : List AEvent :=
  evs.filter fun e => e.event_type == "check_in" && ct < e.event_time

/-- The per-resident output of the `staff_attendance` loop. -/
structure BoardRow where
  last_event_type : String
  checkout_time : Option Int
  expected_back_time : Option Int
  checkin_after_checkout_time : Option Int
  is_out : Bool
  is_overdue : Bool
deriving Repr, DecidableEq

/-- The reducer body of `staff_attendance` for one resident (src/app.py
1581-1691): the most recent event fixes `is_out`; the most recent
check_out fixes `checkout_time` and `expected_back_time`; the query for
the return event takes the check_ins with `event_time > checkout_time`
ordered DESC LIMIT 1 — i.e. the LATEST such check_in (src/app.py
1635-1653); `is_overdue` needs `is_out`, a present expected-back instant,
and that instant before the current UTC time. -/
def attendanceRow (now : Int) (evs : List AEvent) : BoardRow :=
  let lastEvent := qLastByTime evs
  let last_event_type := (lastEvent.map (·.event_type)).getD ""
  let lastCheckout := qLastByTime (checkoutsOf evs)
  let checkout_time := lastCheckout.map (·.event_time)
  let expected_back_time := lastCheckout.bind (·.expected_back_time)
  let checkin_after_checkout_time :=
    match checkout_time with
    | none => none
    | some ct => (qLastByTime (checkinsAfter evs ct)).map (·.event_time)
  let is_out := last_event_type == "check_out"
  let is_overdue := is_out &&
    (match expected_back_time with
     | none => false
     | some eb => decide (eb < now))
  ⟨last_event_type, checkout_time, expected_back_time,
    checkin_after_checkout_time, is_out, is_overdue⟩

/-- Modelled from the spec: the claim's pairing rule, "the earliest
check_in whose event_time is strictly greater than that check_out's
event_time".  Stated from the spec's words, to be compared with
`attendanceRow`. -/
def specEarliestCheckinAfter (evs : List AEvent) (ct : Int) : Option Int :=
  ((checkinsAfter evs ct).map (·.event_time)).foldl
    (fun acc t =>
      match acc with
      | none => some t
      | some a => if t < a then some t else acc) none

/-- The pairing rule the reducer actually implements: the LATEST check_in
strictly after the check_out instant (`ORDER BY event_time DESC LIMIT 1`,
src/app.py 1640).  The amended form of the claim's pairing rule. -/
def specLatestCheckinAfter (evs : List AEvent) (ct : Int) : Option Int :=
  ((checkinsAfter evs ct).map (·.event_time)).foldl
    (fun acc t =>
      match acc with
      | none => some t
      | some a => if a < t then some t else acc) none

/-! ## Trip-history reconstruction
(`staff_attendance_resident_print`, src/app.py 1863-1891) -/

/-- One reconstructed trip row of the resident print view. -/
structure Trip where
  date : Int
  checked_out_at : Int
  expected_back_at : Option Int
  checked_in_at : Option Int
  late : Option Bool
  note : Option String
deriving Repr, DecidableEq

/-- One step of the replay loop (src/app.py 1866-1889): a check_out
replaces the pending trip; a check_in with a pending trip closes it,
setting `checked_in_at` and `late` (only when an expected-back instant is
present); anything else is ignored. -/
def tripStep (acc : List Trip × Option Trip) (e : AEvent) :
    List Trip × Option Trip :=
  if e.event_type == "check_out" then
    (acc.1, some ⟨e.event_time, e.event_time, e.expected_back_time,
      none, none, e.note⟩)
  else if e.event_type == "check_in" then
    match acc.2 with
    | some t =>
      let closed :=
        { t with
          checked_in_at := some e.event_time
          late := t.expected_back_at.map fun eb => decide (eb < e.event_time) }
      (acc.1 ++ [closed], none)
    | none => acc
  else acc

/-- The replay over the whole (time-ascending) event list. -/
def tripFold (evs : List AEvent) : List Trip × Option Trip :=
  evs.foldl tripStep ([], none)

/-- The trip rows the print view renders (src/app.py 1863-1891): ONLY the
closed trips — the pending trip left at the end of the loop is discarded,
never appended. -/
def residentPrintTrips (evs : List AEvent) : List Trip := (tripFold evs).1

/-! ## Staff check-out expected-back parsing
(`staff_attendance_check_out_global`, src/app.py 1753-1767) -/

/-- Python `str.split(":")` on the character list: split at every colon,
keeping empty fragments. -/
def splitColon : List Char → List (List Char)
  | [] => [[]]
  | x :: xs =>
    let r := splitColon xs
    if x == ':' then [] :: r
    else
      match r with
      | [] => [[x]]
      | h :: t => (x :: h) :: t

/-- The decimal value of a digit run; `none` if empty or not all digits
(Python `int()` rejects those). -/
def decDigits : List Char → Option Nat
  | [] => none
  | l =>
    l.foldl
      (fun acc c =>
        match acc with
        | none => none
        | some n => if c.isDigit then some (n * 10 + (c.toNat - 48)) else none)
      (some 0)

/-- Python `int()` applied to a split fragment: surrounding whitespace is
ignored, an optional sign precedes the digits. -/
def pyIntOf (s : String) : Option Int :=
  let l := (s.data.dropWhile Char.isWhitespace).reverse.dropWhile
    Char.isWhitespace |>.reverse
  match l with
  | '-' :: rest => (decDigits rest).map fun n => -(n : Int)
  | '+' :: rest => (decDigits rest).map fun n => (n : Int)
  | _ => (decDigits l).map fun n => (n : Int)

/-- The `hh, mm = expected_back.split(":")` / `int` / `datetime.replace`
pipeline (src/app.py 1756-1758): exactly two fragments, both integers,
hour 0-23 and minute 0-59 (out-of-range values make `replace` raise,
landing in the `except`). -/
def parseHHMM (s : String) : Option (Int × Int) :=
  match (splitColon s.data).map (fun l => String.mk l) with
  | [hs, ms] =>
    match pyIntOf hs, pyIntOf ms with
    | some h, some m =>
      if 0 ≤ h && h ≤ 23 && 0 ≤ m && m ≤ 59 then some (h, m) else none
    | _, _ => none
  | _ => none

/-- The expected-back computation of `staff_attendance_check_out_global`
(src/app.py 1753-1767): an empty or unparseable value yields NULL; a
parsed HH:MM is placed on the current local day, pushed forward one day
when not strictly in the local future, and stored as a UTC instant. -/
def staffCheckOutExpectedBack (off nowUtc : Int) (expected_back : String) :
    Option Int :=
  if expected_back == "" then none
  else
    match parseHHMM expected_back with
    | none => none
    | some (h, m) =>
      let nowChi := nowUtc + off
      let localDt := dayStart nowChi + h * 3600 + m * 60
      let localDt := if localDt ≤ nowChi then localDt + 86400 else localDt
      some (localDt - off)

/-! ## Concrete fixtures used by the closed theorems -/

/-- A Twilio environment that is fully configured but whose provider call
fails. -/
def envFailing : SmsEnv :=
  ⟨true, some "sid", some "tok", some "+15550000000", true⟩

/-- A pending leave request with a stored 10-digit phone. -/
def rowPending : LeaveRow :=
  { id := 1
    shelter := "Abba"
    resident_identifier := "R-1"
    first_name := "Ada"
    last_name := "Lee"
    resident_phone := "5551234567"
    destination := "Clinic"
    leave_at := some 3600
    return_at := some 7200
    status := "pending"
    decided_at := none
    decided_by := none
    decision_note := none
    check_in_at := none
    check_in_by := none }

/-- A leave request already denied. -/
def rowDenied : LeaveRow := { rowPending with id := 2, status := "denied" }

/-- A leave request already approved and already checked in. -/
def rowCheckedIn : LeaveRow :=
  { rowPending with id := 3, status := "approved", check_in_at := some 9000 }

/-- Events with one check_out followed by two check_ins. -/
def evsTwoCheckins : List AEvent :=
  [⟨"check_out", 1, none, none⟩, ⟨"check_in", 2, none, none⟩,
    ⟨"check_in", 3, none, none⟩]

/-- Events with one closed trip. -/
def evsOneTrip : List AEvent :=
  [⟨"check_out", 1, some 10, none⟩, ⟨"check_in", 2, none, none⟩]

/-- A lone trailing check_out. -/
def evTrailingCheckout : AEvent := ⟨"check_out", 5, some 10, none⟩

/-- A pending transport request needed at 04:00 UTC on day 1, which is
11:00 PM local on day 0 at offset -18000 (UTC-5). -/
def rowTransportLateEvening : TransportRow := ⟨1, "Abba", "pending", some 100800⟩

/-- A leave form with a non-empty phone whose agreement box is unchecked. -/
def formNoAgreement : LeaveForm :=
  ⟨"5551234567", "Clinic", "", "", .parsed 0, .parsed 3600, false⟩

/-- The session of the submitting resident. -/
def sessAda : ResidentSession := ⟨"Abba", "R-1", "Ada", "Lee"⟩

/-! ## Helper lemmas -/

/-- Folding `pickLater` from a seed yields an element of seed-or-list that
bounds the seed and every list element by `event_time`. -/
theorem foldl_pickLater_some (l : List AEvent) (a : AEvent) :
    ∃ b, l.foldl pickLater (some a) = some b ∧ (b = a ∨ b ∈ l)
      ∧ a.event_time ≤ b.event_time
      ∧ ∀ x ∈ l, x.event_time ≤ b.event_time := by
  induction l generalizing a with
  | nil => exact ⟨a, rfl, Or.inl rfl, le_refl _, by simp⟩
  | cons e t ih =>
    by_cases h : a.event_time < e.event_time
    · obtain ⟨b, hb, hmem, hle, hall⟩ := ih e
      refine ⟨b, ?_, ?_, le_trans (le_of_lt h) hle, ?_⟩
      · simpa [pickLater, h] using hb
      · rcases hmem with rfl | hm
        · exact Or.inr (List.mem_cons_self ..)
        · exact Or.inr (List.mem_cons_of_mem _ hm)
      · intro x hx
        rcases List.mem_cons.mp hx with rfl | hx
        · exact hle
        · exact hall x hx
    · obtain ⟨b, hb, hmem, hle, hall⟩ := ih a
      refine ⟨b, ?_, ?_, hle, ?_⟩
      · simpa [pickLater, h] using hb
      · rcases hmem with rfl | hm
        · exact Or.inl rfl
        · exact Or.inr (List.mem_cons_of_mem _ hm)
      · intro x hx
        rcases List.mem_cons.mp hx with rfl | hx
        · exact le_trans (le_of_not_lt h) hle
        · exact hall x hx

/-- On a non-empty list, `ORDER BY event_time DESC LIMIT 1` returns a
member whose `event_time` bounds all members. -/
theorem qLastByTime_spec (l : List AEvent) (hl : l ≠ []) :
    ∃ b, qLastByTime l = some b ∧ b ∈ l
      ∧ ∀ x ∈ l, x.event_time ≤ b.event_time := by
  cases l with
  | nil => exact absurd rfl hl
  | cons e t =>
    obtain ⟨b, hb, hmem, hle, hall⟩ := foldl_pickLater_some t e
    refine ⟨b, ?_, ?_, ?_⟩
    · simpa [qLastByTime, pickLater] using hb
    · rcases hmem with rfl | hm
      · exact List.mem_cons_self ..
      · exact List.mem_cons_of_mem _ hm
    · intro x hx
      rcases List.mem_cons.mp hx with rfl | hx
      · exact hle
      · exact hall x hx

/-- When a member strictly dominates every other member by `event_time`,
the DESC LIMIT 1 query returns exactly it. -/
theorem qLastByTime_strictMax (l : List AEvent) (e : AEvent) (he : e ∈ l)
    (hmax : ∀ x ∈ l, x = e ∨ x.event_time < e.event_time) :
    qLastByTime l = some e := by
  obtain ⟨b, hb, hbm, hball⟩ := qLastByTime_spec l (List.ne_nil_of_mem he)
  rcases hmax b hbm with rfl | hlt
  · exact hb
  · exact absurd (hball e he) (not_le.mpr hlt)

/-- The event the DESC LIMIT 1 query keeps, projected to its time, is the
fold keeping the larger time over the projected list. -/
theorem qLastByTime_map_time (l : List AEvent) :
    (qLastByTime l).map (·.event_time) =
      (l.map (·.event_time)).foldl
        (fun acc t =>
          match acc with
          | none => some t
          | some a => if a < t then some t else acc) none := by
  rw [List.foldl_map]
  show (l.foldl pickLater none).map (·.event_time) = _
  have key : ∀ (acc : Option AEvent),
      (l.foldl pickLater acc).map (·.event_time) =
        l.foldl
          (fun acc e =>
            match acc with
            | none => some e.event_time
            | some a => if a < e.event_time then some e.event_time else acc)
          (acc.map (·.event_time)) := by
    induction l with
    | nil => intro acc; rfl
    | cons e t ih =>
      intro acc
      simp only [List.foldl_cons]
      rw [ih]
      congr 1
      cases acc with
      | none => rfl
      | some a =>
        simp only [pickLater, Option.map_some]
        by_cases h : a.event_time < e.event_time <;> simp [h]
  exact key none

/-- The replay loop only ever appends to the accumulated closed-trip list:
running it from `(a, c)` yields `a` followed by what running from
`([], c)` yields. -/
theorem tripFold_shift (l : List AEvent) :
    ∀ (a : List Trip) (c : Option Trip),
      l.foldl tripStep (a, c) =
        (a ++ (l.foldl tripStep ([], c)).1, (l.foldl tripStep ([], c)).2) := by
  induction l with
  | nil => intro a c; simp
  | cons e t ih =>
    intro a c
    simp only [List.foldl_cons]
    cases hco : e.event_type == "check_out" with
    | true =>
      simp only [tripStep, hco, if_true]
      exact ih a _
    | false =>
      cases hci : e.event_type == "check_in" with
      | true =>
        cases c with
        | none =>
          simpa [tripStep, hco, hci] using ih a none
        | some tr =>
          simp only [tripStep, hco, hci, Bool.false_eq_true, if_false,
            if_true, List.nil_append]
          rw [ih (a ++ [_]) none, ih [_] none]
          simp
      | false =>
        simpa [tripStep, hco, hci] using ih a c

/-- Every trip the replay ever appends is closed: it carries a check-in
time and its lateness is computed from it. -/
theorem tripFold_closed (l : List AEvent) :
    ∀ (a : List Trip) (c : Option Trip),
      (∀ tr ∈ a, ∃ t, tr.checked_in_at = some t
        ∧ tr.late = tr.expected_back_at.map fun eb => decide (eb < t)) →
      ∀ tr ∈ (l.foldl tripStep (a, c)).1,
        ∃ t, tr.checked_in_at = some t
          ∧ tr.late = tr.expected_back_at.map fun eb => decide (eb < t) := by
  induction l with
  | nil => intro a c ha; simpa using ha
  | cons e t ih =>
    intro a c ha
    simp only [List.foldl_cons]
    cases hco : e.event_type == "check_out" with
    | true =>
      simp only [tripStep, hco, if_true]
      exact ih a _ ha
    | false =>
      cases hci : e.event_type == "check_in" with
      | true =>
        cases c with
        | none => simpa [tripStep, hco, hci] using ih a none ha
        | some tr =>
          simp only [tripStep, hco, hci, Bool.false_eq_true, if_false,
            if_true, List.nil_append]
          refine ih _ none ?_
          intro x hx
          rcases List.mem_append.mp hx with hx | hx
          · exact ha x hx
          · simp only [List.mem_singleton] at hx
            subst hx
            exact ⟨e.event_time, rfl, rfl⟩
      | false => simpa [tripStep, hco, hci] using ih a c ha

/-- A successful HH:MM parse yields an hour in 0-23 and a minute in
0-59 (the ranges `datetime.replace` accepts). -/
theorem parseHHMM_bounds (s : String) (h m : Int)
    (hs : parseHHMM s = some (h, m)) :
    0 ≤ h ∧ h ≤ 23 ∧ 0 ≤ m ∧ m ≤ 59 := by
  unfold parseHHMM at hs
  split at hs
  · split at hs
    · split at hs
      · rename_i hcond
        simp only [Option.some.injEq, Prod.mk.injEq] at hs
        obtain ⟨rfl, rfl⟩ := hs
        simp only [Bool.and_eq_true, decide_eq_true_eq] at hcond
        exact ⟨hcond.1.1.1, hcond.1.1.2, hcond.1.2, hcond.2⟩
      · exact absurd hs (by simp)
    · exact absurd hs (by simp)
  · exact absurd hs (by simp)

/-! ## Claim theorems -/

/-- C1: the claim says approve on a non-pending request is rejected ("not
pending" error, row unchanged, no SMS) AND that approve's state change is
a conditional UPDATE guarded by `status = 'pending'` acting as a
compare-and-swap, so of two racing approvals at most one UPDATE affects
the row.  Evaluating the model: the sequential rejection does hold (first
three conjuncts), but the approve UPDATE (src/app.py 1242-1256) keys only
on id and shelter — applied to the state a first approval left behind, a
second approve UPDATE still affects the already-approved row, overwriting
`decided_by`; thus both racing UPDATEs affect the row. -/
theorem approve_update_not_conditional_on_pending :
    (staff_leave_approve envFailing 0 6 1 "Abba" 8 "x"
      ⟨approveUpdate 5 7 "" 1 "Abba" [rowPending], []⟩).flash = "Not pending."
    ∧ (staff_leave_approve envFailing 0 6 1 "Abba" 8 "x"
        ⟨approveUpdate 5 7 "" 1 "Abba" [rowPending], []⟩).st =
        ⟨approveUpdate 5 7 "" 1 "Abba" [rowPending], []⟩
    ∧ (staff_leave_approve envFailing 0 6 1 "Abba" 8 "x"
        ⟨approveUpdate 5 7 "" 1 "Abba" [rowPending], []⟩).sms.sent = []
    ∧ (approveUpdate 5 7 "" 1 "Abba" [rowPending]).map (·.status) =
        ["approved"]
    ∧ (approveUpdate 6 8 "" 1 "Abba"
        (approveUpdate 5 7 "" 1 "Abba" [rowPending])).map (·.decided_by) =
        [some 8]
    ∧ approveUpdate 6 8 "" 1 "Abba"
        (approveUpdate 5 7 "" 1 "Abba" [rowPending]) ≠
        approveUpdate 5 7 "" 1 "Abba" [rowPending] := by
  decide

/-- C2: the claim says the zero-row outcome of the conditional deny and
leave check-in UPDATEs is detected and reported as "not pending" / a
no-op and never as success.  Evaluating the model on a request already
denied (resp. already checked in): the conditional UPDATE indeed affects
zero rows and the table is unchanged, but both handlers flash their
success message ("Denied."/"Checked in.") with category "ok" and write
their audit entry anyway — the affected-row count is never inspected
(src/app.py 1300-1318 and 1329-1347). -/
theorem stale_deny_check_in_reported_as_success :
    ((staff_leave_deny 5 2 "Abba" 7 "nope" ⟨[rowDenied], []⟩).2 = 0
      ∧ (staff_leave_deny 5 2 "Abba" 7 "nope"
          ⟨[rowDenied], []⟩).1.st.leave_requests = [rowDenied]
      ∧ (staff_leave_deny 5 2 "Abba" 7 "nope" ⟨[rowDenied], []⟩).1.flash =
          "Denied."
      ∧ (staff_leave_deny 5 2 "Abba" 7 "nope" ⟨[rowDenied], []⟩).1.flashKind =
          "ok"
      ∧ (staff_leave_deny 5 2 "Abba" 7 "nope"
          ⟨[rowDenied], []⟩).1.st.audit_log.map (·.action_type) = ["deny"])
    ∧ ((staff_leave_check_in 5 3 "Abba" 7 "" ⟨[rowCheckedIn], []⟩).2 = 0
      ∧ (staff_leave_check_in 5 3 "Abba" 7 ""
          ⟨[rowCheckedIn], []⟩).1.st.leave_requests = [rowCheckedIn]
      ∧ (staff_leave_check_in 5 3 "Abba" 7 "" ⟨[rowCheckedIn], []⟩).1.flash =
          "Checked in."
      ∧ (staff_leave_check_in 5 3 "Abba" 7 ""
          ⟨[rowCheckedIn], []⟩).1.flashKind = "ok") := by
  decide

/-- C8: the claim says a failed approval SMS is logged to the audit trail
as a `(leave, sms_failed)` entry.  Evaluating the model on a pending
request with a valid phone and a failing provider: the approval commits
and nothing propagates (first three conjuncts hold, as the claim also
says), the provider failure really happened (nothing sent, one console
error print — src/app.py 149-150 catches inside `send_sms`), yet the
audit log contains only the `approve` entry and no `sms_failed` entry:
the `except` branch at src/app.py 1282-1283 is unreachable because
`send_sms` never raises. -/
theorem sms_failure_not_audited :
    (staff_leave_approve envFailing 0 6 1 "Abba" 7 ""
        ⟨[rowPending], []⟩).st.leave_requests.map (·.status) = ["approved"]
    ∧ (staff_leave_approve envFailing 0 6 1 "Abba" 7 ""
        ⟨[rowPending], []⟩).flash = "Approved."
    ∧ (staff_leave_approve envFailing 0 6 1 "Abba" 7 ""
        ⟨[rowPending], []⟩).sms.raised = false
    ∧ (staff_leave_approve envFailing 0 6 1 "Abba" 7 ""
        ⟨[rowPending], []⟩).sms.sent = []
    ∧ (staff_leave_approve envFailing 0 6 1 "Abba" 7 ""
        ⟨[rowPending], []⟩).sms.consolePrints = 1
    ∧ (staff_leave_approve envFailing 0 6 1 "Abba" 7 ""
        ⟨[rowPending], []⟩).st.audit_log.map (·.action_type) = ["approve"] := by
  decide

/-- C3 counterexample: with a check_out at 1 followed by check_ins at 2
and 3, the claim's pairing rule (earliest check_in strictly after the
most recent check_out) yields 2, but the board shows 3 — the code's
`ORDER BY event_time DESC LIMIT 1` keeps the latest, not the earliest. -/
theorem board_pairing_not_earliest_checkin :
    (attendanceRow 100 evsTwoCheckins).checkout_time = some 1
    ∧ specEarliestCheckinAfter evsTwoCheckins 1 = some 2
    ∧ (attendanceRow 100 evsTwoCheckins).checkin_after_checkout_time = some 3
    ∧ (attendanceRow 100 evsTwoCheckins).checkin_after_checkout_time ≠
        specEarliestCheckinAfter evsTwoCheckins 1 := by
  decide

/-- C3 (amended): the return event the attendance board pairs with the
most recent check_out is the LATEST check_in whose event_time is strictly
greater than that check_out's event_time (closures still pair purely by
time order, never by explicit foreign key). -/
theorem board_pairs_latest_checkin_after_checkout (now ct : Int)
    (evs : List AEvent)
    (hco : (attendanceRow now evs).checkout_time = some ct) :
    (attendanceRow now evs).checkin_after_checkout_time =
      specLatestCheckinAfter evs ct := by
  simp only [attendanceRow] at hco ⊢
  rw [hco]
  simpa [specLatestCheckinAfter] using
    qLastByTime_map_time (checkinsAfter evs ct)

/-- C3 witness: the amended pairing rule evaluated on the concrete event
list with two check_ins after the check_out. -/
theorem board_pairs_latest_checkin_witness :
    (attendanceRow 100 evsTwoCheckins).checkout_time = some 1
    ∧ (attendanceRow 100 evsTwoCheckins).checkin_after_checkout_time =
        specLatestCheckinAfter evsTwoCheckins 1 :=
  ⟨by decide,
    board_pairs_latest_checkin_after_checkout 100 1 evsTwoCheckins (by decide)⟩

/-- C4 counterexample: a submission with the agreement box unchecked and a
non-empty phone fails validation (400 returned), yet the residents table
was already updated with the submitted phone: the phone UPDATE at
src/app.py 822-828 runs before validation, so a failed submission is not
free of row updates. -/
theorem failed_leave_submission_still_updates_phone :
    leaveValidationErrors sessAda formNoAgreement ≠ []
    ∧ (resident_leave_post 1 sessAda formNoAgreement).http400 = true
    ∧ (resident_leave_post 1 sessAda formNoAgreement).phone_updated = true := by
  decide

/-- C4 (amended): a leave submission that fails validation inserts no
`leave_requests` row and writes no audit entry, and returns 400 — only
the resident-phone update (issued before validation) may have happened. -/
theorem failed_leave_submission_inserts_no_leave_row (nid : Nat)
    (sess : ResidentSession) (form : LeaveForm)
    (h : leaveValidationErrors sess form ≠ []) :
    (resident_leave_post nid sess form).inserted = none
    ∧ (resident_leave_post nid sess form).audit = []
    ∧ (resident_leave_post nid sess form).http400 = true := by
  have hne : (leaveValidationErrors sess form).isEmpty = false := by
    cases hE : leaveValidationErrors sess form with
    | nil => exact absurd hE h
    | cons a t => rfl
  simp [resident_leave_post, hne]

/-- C4 witness: the amended statement at the concrete failing form. -/
theorem failed_leave_submission_witness :
    leaveValidationErrors sessAda formNoAgreement ≠ []
    ∧ ((resident_leave_post 2 sessAda formNoAgreement).inserted = none
      ∧ (resident_leave_post 2 sessAda formNoAgreement).audit = []
      ∧ (resident_leave_post 2 sessAda formNoAgreement).http400 = true) :=
  ⟨by decide,
    failed_leave_submission_inserts_no_leave_row 2 sessAda formNoAgreement
      (by decide)⟩

/-- C5: a leave request is in the staff Overdue view iff it is one of the
queried rows with status approved, the viewed shelter, a null
check_in_at, and the current local wall clock is strictly past 10:00 PM
local on the local calendar date of its (present and parseable)
return_at — not simply when return_at is before now. -/
theorem overdue_view_membership (off nowUtc : Int) (shelter : String)
    (rows : List LeaveRow) (r : LeaveRow) :
    r ∈ staff_leave_overdue off nowUtc shelter rows ↔
      r ∈ rows ∧ r.status = "approved" ∧ r.shelter = shelter
        ∧ r.check_in_at = none
        ∧ ∃ rt, r.return_at = some rt
            ∧ overdueCutoffLocal (rt + off) < nowUtc + off := by
  cases hr : r.return_at with
  | none =>
    simp [staff_leave_overdue, overdueQuery, List.mem_filter, hr]
  | some rt =>
    simp [staff_leave_overdue, overdueQuery, List.mem_filter, hr,
      Option.isNone_iff_eq_none, and_assoc]
    tauto

/-- C6: the attendance reducer's is_out equals (event_type of the
maximum-by-event_time event == check_out) whenever the sequence has a
strictly latest event, and a resident with no events reduces to is_out
false with no overdue flag. -/
theorem attendance_is_out_max_event (now : Int) (evs : List AEvent)
    (e : AEvent) (he : e ∈ evs)
    (hmax : ∀ x ∈ evs, x = e ∨ x.event_time < e.event_time) :
    (attendanceRow now evs).is_out = (e.event_type == "check_out")
    ∧ (attendanceRow now []).is_out = false
    ∧ (attendanceRow now []).is_overdue = false := by
  refine ⟨?_, rfl, rfl⟩
  have hq := qLastByTime_strictMax evs e he hmax
  simp [attendanceRow, hq]

/-- C6 witness: the reducer evaluated on the concrete sequence whose
latest event is a check_in. -/
theorem attendance_is_out_witness :
    (⟨"check_in", 3, none, none⟩ : AEvent) ∈ evsTwoCheckins
    ∧ ((attendanceRow 100 evsTwoCheckins).is_out =
        (("check_in" : String) == "check_out")
      ∧ (attendanceRow 100 []).is_out = false
      ∧ (attendanceRow 100 []).is_overdue = false) :=
  ⟨by decide,
    attendance_is_out_max_event 100 evsTwoCheckins ⟨"check_in", 3, none, none⟩
      (by decide) (by decide)⟩

/-- C7 counterexample: a trailing check_out with no subsequent check_in
produces NO row at all in the print view's trip list — the pending open
trip is discarded after the loop (src/app.py 1863-1891 never appends
`current_trip`), so it is not "reported as an open trip". -/
theorem trailing_open_trip_dropped :
    residentPrintTrips [evTrailingCheckout] = []
    ∧ residentPrintTrips evsOneTrip ≠ [] := by
  decide

/-- C7 (amended): replaying the events in ascending time order, every
reported trip row is a closed one — a check_in closes the pending
check_out, setting checked_in_at and late := checked_in_at >
expected_back_at (when an expected-back instant is present); a
check_out immediately followed by a check_in yields exactly that closed
trip; and a trailing check_out with no subsequent check_in adds no row to
the report (the open trip is omitted, not shown open). -/
theorem trip_reconstruction_replay (evs rest : List AEvent) (tr : Trip)
    (co ci e : AEvent) (htr : tr ∈ residentPrintTrips evs)
    (hco : co.event_type = "check_out") (hci : ci.event_type = "check_in")
    (he : e.event_type = "check_out") :
    (∃ t, tr.checked_in_at = some t
      ∧ tr.late = tr.expected_back_at.map fun eb => decide (eb < t))
    ∧ residentPrintTrips (evs ++ [e]) = residentPrintTrips evs
    ∧ residentPrintTrips (co :: ci :: rest) =
        ⟨co.event_time, co.event_time, co.expected_back_time,
          some ci.event_time,
          co.expected_back_time.map fun eb => decide (eb < ci.event_time),
          co.note⟩ :: residentPrintTrips rest := by
  refine ⟨tripFold_closed evs [] none (by simp) tr htr, ?_, ?_⟩
  · simp [residentPrintTrips, tripFold, List.foldl_append, tripStep, he]
  · simp only [residentPrintTrips, tripFold, List.foldl_cons]
    have h1 : tripStep ([], none) co =
        ([], some ⟨co.event_time, co.event_time, co.expected_back_time,
          none, none, co.note⟩) := by
      simp [tripStep, hco]
    rw [h1]
    have h2 : tripStep ([], some ⟨co.event_time, co.event_time,
        co.expected_back_time, none, none, co.note⟩) ci =
        ([⟨co.event_time, co.event_time, co.expected_back_time,
          some ci.event_time,
          co.expected_back_time.map fun eb => decide (eb < ci.event_time),
          co.note⟩], none) := by
      simp [tripStep, hci]
    rw [h2, tripFold_shift rest _ none]
    simp

/-- C7 witness: the amended replay statement at a concrete closed trip, a
concrete trailing check_out and a concrete check_out/check_in pair. -/
theorem trip_reconstruction_witness :
    ((⟨1, 1, some 10, some 2, some false, none⟩ : Trip) ∈
        residentPrintTrips evsOneTrip
      ∧ (evTrailingCheckout).event_type = "check_out")
    ∧ ((∃ t, (⟨1, 1, some 10, some 2, some false, none⟩ : Trip).checked_in_at
          = some t
        ∧ (⟨1, 1, some 10, some 2, some false, none⟩ : Trip).late =
            (⟨1, 1, some 10, some 2, some false, none⟩ :
              Trip).expected_back_at.map fun eb => decide (eb < t))
      ∧ residentPrintTrips (evsOneTrip ++ [evTrailingCheckout]) =
          residentPrintTrips evsOneTrip
      ∧ residentPrintTrips (evTrailingCheckout ::
          (⟨"check_in", 7, none, none⟩ : AEvent) :: evsOneTrip) =
          ⟨5, 5, some 10, some 7, some false, none⟩ ::
            residentPrintTrips evsOneTrip) :=
  ⟨⟨by decide, by decide⟩, by
    have h := trip_reconstruction_replay evsOneTrip evsOneTrip
      ⟨1, 1, some 10, some 2, some false, none⟩ evTrailingCheckout
      ⟨"check_in", 7, none, none⟩ evTrailingCheckout (by decide) rfl rfl rfl
    exact ⟨h.1, h.2.1, by simpa using h.2.2⟩⟩

/-- C9 counterexample: a pending transport request needed at 11:00 PM
local on day 0 (04:00 UTC on day 1, offset -18000) satisfies the claim's
predicate for day 0 (status pending, local date 0), yet both the board
and the print view filtered to day 0 exclude it: the code compares the
UTC date of the stored instant, without local conversion (src/app.py
1396-1397 and 1441-1442). -/
theorem transport_day_filter_not_local_date :
    rowTransportLateEvening.status = "pending"
    ∧ rowTransportLateEvening.shelter = "Abba"
    ∧ rowTransportLateEvening.needed_at = some 100800
    ∧ dayOf (100800 + -18000) = 0
    ∧ staff_transport_board "Abba" (some 0) [rowTransportLateEvening] = []
    ∧ staff_transport_print "Abba" (some 0) 0 [rowTransportLateEvening] =
        [] := by
  decide

/-- C9 (amended): the board and print views filtered to a given day
include exactly the queried requests with status pending or scheduled for
the shelter whose needed_at has the requested UTC calendar date —
matching is by date equality on the stored UTC instant, with no local
timezone conversion; and the print view with a given day shows exactly
the board's rows. -/
theorem transport_day_views_membership (shelter : String)
    (day todayUtc : Int) (rows : List TransportRow) (r : TransportRow) :
    (r ∈ staff_transport_board shelter (some day) rows ↔
      r ∈ rows ∧ r.shelter = shelter
        ∧ (r.status = "pending" ∨ r.status = "scheduled")
        ∧ ∃ t, r.needed_at = some t ∧ dayOf t = day)
    ∧ staff_transport_print shelter (some day) todayUtc rows =
        staff_transport_board shelter (some day) rows := by
  refine ⟨?_, rfl⟩
  cases hr : r.needed_at with
  | none =>
    simp [staff_transport_board, transportDayFilter, transportQuery,
      List.mem_filter, hr]
  | some t =>
    simp [staff_transport_board, transportDayFilter, transportQuery,
      List.mem_filter, hr, and_assoc]
    tauto

/-- C10: a supplied expected-back value that splits as HH:MM with hour
0-23 and minute 0-59 is interpreted as that local wall-clock time on the
current local day, pushed forward exactly one day when not strictly after
the current local time, and stored as a UTC instant: the stored value has
that local time of day, is strictly in the future, and is at most one day
ahead; a value the HH:MM parse rejects yields a null expected_back_time
rather than an error. -/
theorem check_out_expected_back_characterization (off nowUtc h m : Int)
    (s s2 : String) (hne : s ≠ "") (hs : parseHHMM s = some (h, m))
    (h2 : parseHHMM s2 = none) :
    (∃ u, staffCheckOutExpectedBack off nowUtc s = some u
      ∧ (u + off) % 86400 = h * 3600 + m * 60
      ∧ nowUtc < u ∧ u ≤ nowUtc + 86400)
    ∧ staffCheckOutExpectedBack off nowUtc s2 = none := by
  obtain ⟨hh0, hh23, hm0, hm59⟩ := parseHHMM_bounds s h m hs
  constructor
  · have hbe : (s == "") = false := by
      simpa using hne
    simp only [staffCheckOutExpectedBack, hbe, Bool.false_eq_true,
      if_false, hs]
    set n := nowUtc + off with hn
    have hdm : 86400 * (n.ediv 86400) + n.emod 86400 = n :=
      Int.ediv_add_emod n 86400
    have hr0 : 0 ≤ n.emod 86400 := Int.emod_nonneg n (by norm_num)
    have hrlt : n.emod 86400 < 86400 := Int.emod_lt_of_pos n (by norm_num)
    have hds : dayStart n = 86400 * (n.ediv 86400) := by
      simp [dayStart]; ring
    by_cases hc : dayStart n + h * 3600 + m * 60 ≤ n
    · refine ⟨dayStart n + h * 3600 + m * 60 + 86400 - off, by simp [hc],
        ?_, by omega, by omega⟩
      have harr : dayStart n + h * 3600 + m * 60 + 86400 - off + off
          = (h * 3600 + m * 60) + 86400 * (n.ediv 86400 + 1) := by
        rw [hds]; ring
      rw [harr, Int.add_mul_emod_self_left,
        Int.emod_eq_of_lt (by omega) (by omega)]
    · refine ⟨dayStart n + h * 3600 + m * 60 - off, by simp [hc],
        ?_, by omega, by omega⟩
      have harr : dayStart n + h * 3600 + m * 60 - off + off
          = (h * 3600 + m * 60) + 86400 * (n.ediv 86400) := by
        rw [hds]; ring
      rw [harr, Int.add_mul_emod_self_left,
        Int.emod_eq_of_lt (by omega) (by omega)]
  · by_cases hb2 : s2 = ""
    · simp [staffCheckOutExpectedBack, hb2]
    · have hbe2 : (s2 == "") = false := by simpa using hb2
      simp [staffCheckOutExpectedBack, hbe2, h2]

/-- C10 witness: the characterization at "18:30" and the unparseable
"late evening", at UTC-5 with now at the epoch. -/
theorem check_out_expected_back_witness :
    ("18:30" ≠ "" ∧ parseHHMM "18:30" = some (18, 30)
      ∧ parseHHMM "late evening" = none)
    ∧ ((∃ u, staffCheckOutExpectedBack (-18000) 0 "18:30" = some u
        ∧ (u + -18000) % 86400 = 18 * 3600 + 30 * 60
        ∧ 0 < u ∧ u ≤ 0 + 86400)
      ∧ staffCheckOutExpectedBack (-18000) 0 "late evening" = none) :=
  ⟨⟨by decide, by decide, by decide⟩,
    check_out_expected_back_characterization (-18000) 0 18 30 "18:30"
      "late evening" (by decide) (by decide) (by decide)⟩

end ShelterKiosk
